import Mathlib

/-!
Verification of the browser-side conversation client in
`src/static/script.js`.

The script wires a form-submit handler to a backend `/chat` endpoint and
renders messages in a scrolling transcript.  The embedding below models the
DOM transcript (`Conversation`), the `appendMessage` helper, and the submit
handler split into its synchronous phase (everything up to the `await fetch`)
and its resumption (everything after the fetch settles), with the settled
fetch result supplied as an explicit `FetchOutcome` value.
-/

namespace ChatClient

/-- Code points of the characters removed by ECMAScript
`String.prototype.trim` (WhiteSpace and LineTerminator productions). -/
def jsWhitespaceCodes : List Nat :=
  [0x9, 0xA, 0xB, 0xC, 0xD, 0x20, 0xA0, 0x1680,
   0x2000, 0x2001, 0x2002, 0x2003, 0x2004, 0x2005, 0x2006, 0x2007,
   0x2008, 0x2009, 0x200A, 0x2028, 0x2029, 0x202F, 0x205F, 0x3000, 0xFEFF]

/-- Whether a character is trimmed by JavaScript `trim()`. -/
def isJsWhitespace (c : Char) : Bool :=
  jsWhitespaceCodes.contains c.toNat

/-- Embedding of `input.value.trim()`: drop leading and trailing
JavaScript whitespace. -/
def jsTrim (s : String) : String :=
  String.mk (((s.data.dropWhile isJsWhitespace).reverse.dropWhile
      isJsWhitespace).reverse)

/-- JSON values, as produced by `response.json()` and consumed by
`JSON.stringify`. -/
inductive Json where
  | null
  | bool (b : Bool)
  | num (n : Int)
  | str (s : String)
  | obj (fields : List (String × Json))

/-- JavaScript property access `v.key` on a parsed JSON value: on `null` it
throws a TypeError (the message modelled concretely after V8, though its
exact wording is engine-dependent); on an object it yields the field's value,
or `undefined` (`none`) when the field is absent; on the remaining
primitives, which autobox and have no such own property, it yields
`undefined` without throwing. -/
def getProp (v : Json) (key : String) : Except String (Option Json) :=
  match v with
  | .null => .error ("Cannot read properties of null (reading " ++ key ++ ")")
  | .obj fields => .ok (fields.lookup key)
  | _ => .ok none

/-- DOM semantics of assigning a JavaScript value to `textContent`.
Strings are taken literally; `undefined` (modelled as `none`) stringifies to
"undefined"; `null` is treated as the empty string by the setter; other
values are coerced by ToString / ToPrimitive. -/
def jsToDomString : Option Json → String
  | none => "undefined"
  | some .null => ""
  | some (.bool b) => cond b "true" "false"
  | some (.num n) => toString n
  | some (.str s) => s
  | some (.obj _) => "[object Object]"

/-- A rendered transcript entry: the `div` created by `appendMessage`, with
its CSS class, its literal text content, and its laid-out height. -/
structure Elem where
  className : String
  textContent : String
  height : Nat
deriving DecidableEq

/-- The `conversation` container element: its child elements in document
order, its scroll position, and its viewport height. -/
structure Conversation where
  children : List Elem
  scrollTop : Nat
  clientHeight : Nat
deriving DecidableEq

/-- CSSOM `scrollHeight`: the content height, never less than the client
height. -/
def scrollHeight (c : Conversation) : Nat :=
  max (c.children.map Elem.height).sum c.clientHeight

/-- The maximum scrollable extent of the container:
`scrollHeight - clientHeight`. -/
def maxScrollExtent (c : Conversation) : Nat :=
  scrollHeight c - c.clientHeight

/-- CSSOM semantics of the assignment `conversation.scrollTop = v`: the
stored scroll position is clamped to the maximum scrollable extent. -/
def setScrollTop (c : Conversation) (v : Nat) : Conversation :=
  { c with scrollTop := min v (maxScrollExtent c) }

/-- Embedding of the body of `appendMessage(sender, text)` once
`classList.add` has accepted the class token: create one `div` with CSS
class `sender + "-message"` and literal text content `text`, append it as the
last child of the conversation, then assign
`conversation.scrollTop = conversation.scrollHeight`.  `h` is the height the
layout engine gives the new element.  The handler only ever passes the
senders "user" and "bot", whose tokens pass validation, so this total form
embeds every call the script makes; `appendMessageDom` below is the full
function including the validation. -/
def appendMessage (h : Nat) (c : Conversation) (sender text : String) :
    Conversation :=
  let messageElement : Elem :=
    { className := sender ++ "-message", textContent := text, height := h }
  let c1 : Conversation := { c with children := c.children ++ [messageElement] }
  setScrollTop c1 (scrollHeight c1)

/-- ASCII whitespace, the character class rejected by DOMTokenList token
validation. -/
def isAsciiWhitespace (c : Char) : Bool :=
  c = ' ' || c = '\t' || c = '\n' || c = '\x0c' || c = '\r'

/-- Whether a string is accepted by `classList.add` as a class token:
non-empty and free of ASCII whitespace. -/
def validClassToken (token : String) : Bool :=
  !(token == "") && !(token.data.any isAsciiWhitespace)

/-- Full embedding of `appendMessage(sender, text)` including
`classList.add`'s token validation: an empty token raises SyntaxError and a
token containing ASCII whitespace raises InvalidCharacterError; in either
case the new `div` is never appended and the conversation is untouched.
Otherwise the function behaves as `appendMessage`. -/
def appendMessageDom (h : Nat) (c : Conversation) (sender text : String) :
    Except String Conversation :=
  let token := sender ++ "-message"
  if token == "" then .error "SyntaxError"
  else if token.data.any isAsciiWhitespace then .error "InvalidCharacterError"
  else .ok (appendMessage h c sender text)

/-- The page state the handler touches: the value of the `message-input`
field and the `conversation` element. -/
structure PageState where
  inputValue : String
  conversation : Conversation
deriving DecidableEq

/-- An outbound HTTP request, as assembled by the `fetch` call.  The body is
the structured argument of `JSON.stringify`. -/
structure Request where
  method : String
  url : String
  headers : List (String × String)
  body : Json

/-- `Response.ok`: the HTTP status lies in the success range 200..299. -/
def responseOk (status : Nat) : Bool :=
  200 ≤ status && status ≤ 299

/-- Result of `response.json()`: either the body fails to parse as JSON (the
returned promise rejects with an error carrying `msg`) or it parses to a
JSON value. -/
inductive BodyResult where
  | parseError (msg : String)
  | parsed (v : Json)

/-- The settled result of the `fetch` call: either the promise rejects with
a network error carrying `msg`, or a response arrives with an HTTP status
and a body. -/
inductive FetchOutcome where
  | networkError (msg : String)
  | response (status : Nat) (body : BodyResult)

/-- The synchronous phase of the submit handler, from
`const message = input.value.trim()` up to issuing the `fetch`: when the
trimmed input is truthy (non-empty), append the user message, clear the
input field, and issue one POST request to `/chat`; otherwise do nothing.
`hUser` is the layout height of the new user element.  Returns the updated
page state and the request issued, if any. -/
def submitSync (hUser : Nat) (s : PageState) : PageState × Option Request :=
  let message := jsTrim s.inputValue
  if message ≠ "" then
    let conv1 := appendMessage hUser s.conversation "user" message
    let req : Request :=
      { method := "POST"
        url := "/chat"
        headers := [("Content-Type", "application/json")]
        body := Json.obj [("message", Json.str message)] }
    ({ inputValue := "", conversation := conv1 }, some req)
  else
    (s, none)

/-- The resumption of the submit handler after the `fetch` settles: if the
fetch rejected, or `response.ok` is false (the handler throws
`Error('Network response was not ok')`), or `response.json()` rejects, or
reading `data.response` throws (a TypeError, when the body parsed to JSON
null), the `catch` block appends a bot message `"Error: " + error.message`;
otherwise the handler appends a bot message with `data.response`.  `hBot` is
the layout height of the new element. -/
def submitResume (hBot : Nat) (s : PageState) (o : FetchOutcome) : PageState :=
  match o with
  | .networkError msg =>
      { s with conversation := appendMessage hBot s.conversation "bot" ("Error: " ++ msg) }
  | .response status body =>
      if responseOk status then
        match body with
        | .parseError msg =>
            { s with conversation := appendMessage hBot s.conversation "bot" ("Error: " ++ msg) }
        | .parsed v =>
            match getProp v "response" with
            | .error msg =>
                { s with conversation := appendMessage hBot s.conversation "bot" ("Error: " ++ msg) }
            | .ok r =>
                { s with conversation := appendMessage hBot s.conversation "bot" (jsToDomString r) }
      else
        { s with conversation := appendMessage hBot s.conversation "bot" ("Error: " ++ "Network response was not ok") }

/-- One complete run of the submit handler: the synchronous phase, then —
only when a request was issued — the resumption on the settled outcome `o`.
Returns the final page state and the list of requests issued. -/
def submit (hUser hBot : Nat) (o : FetchOutcome) (s : PageState) :
    PageState × List Request :=
  match submitSync hUser s with
  | (s1, none) => (s1, [])
  | (s1, some req) => (submitResume hBot s1 o, [req])

/-- The transcript entry the resumption appends for a given settled
outcome. -/
def resumeElem (hBot : Nat) (o : FetchOutcome) : Elem :=
  match o with
  | .networkError msg => ⟨"bot-message", "Error: " ++ msg, hBot⟩
  | .response status body =>
      if responseOk status then
        match body with
        | .parseError msg => ⟨"bot-message", "Error: " ++ msg, hBot⟩
        | .parsed v =>
            match getProp v "response" with
            | .error msg => ⟨"bot-message", "Error: " ++ msg, hBot⟩
            | .ok r => ⟨"bot-message", jsToDomString r, hBot⟩
      else
        ⟨"bot-message", "Error: " ++ "Network response was not ok", hBot⟩

/-- The request the handler issues for the concrete input "Hi": used to
state concrete instances of the request-shape theorems. -/
def sampleRequest : Request :=
  { method := "POST", url := "/chat",
    headers := [("Content-Type", "application/json")],
    body := Json.obj [("message", Json.str "Hi")] }

/-- A concrete fetch rejection, used to state concrete instances of the
interleaving theorem. -/
def outcomeNetErr : FetchOutcome := .networkError "x"

/-- A concrete successful reply carrying "hello", used to state concrete
instances of the interleaving theorem. -/
def outcomeHello : FetchOutcome :=
  .response 200 (.parsed (Json.obj [("response", Json.str "hello")]))

/-! ## Helper lemmas -/

theorem appendMessage_children (h : Nat) (c : Conversation) (sender text : String) :
    (appendMessage h c sender text).children
      = c.children ++ [⟨sender ++ "-message", text, h⟩] := rfl

theorem appendMessage_clientHeight (h : Nat) (c : Conversation) (sender text : String) :
    (appendMessage h c sender text).clientHeight = c.clientHeight := rfl

theorem appendMessageDom_user_bot (h : Nat) (c : Conversation) (t : String) :
    appendMessageDom h c "user" t = .ok (appendMessage h c "user" t)
    ∧ appendMessageDom h c "bot" t = .ok (appendMessage h c "bot" t) :=
  ⟨rfl, rfl⟩

theorem submitResume_children (hBot : Nat) (s : PageState) (o : FetchOutcome) :
    (submitResume hBot s o).conversation.children
      = s.conversation.children ++ [resumeElem hBot o] := by
  cases o with
  | networkError msg => rfl
  | response status body =>
      by_cases hok : responseOk status
      · cases body with
        | parseError msg => simp [submitResume, resumeElem, hok, appendMessage_children]
        | parsed v =>
            cases hgp : getProp v "response" <;>
              simp [submitResume, resumeElem, hok, hgp, appendMessage_children]
      · cases body <;> simp [submitResume, resumeElem, hok, appendMessage_children]

theorem submitResume_inputValue (hBot : Nat) (s : PageState) (o : FetchOutcome) :
    (submitResume hBot s o).inputValue = s.inputValue := by
  cases o with
  | networkError msg => rfl
  | response status body =>
      by_cases hok : responseOk status
      · cases body with
        | parseError msg => simp [submitResume, hok]
        | parsed v => cases hgp : getProp v "response" <;> simp [submitResume, hok, hgp]
      · cases body <;> simp [submitResume, hok]

theorem submitSync_of_ne (hUser : Nat) (s : PageState) (hne : jsTrim s.inputValue ≠ "") :
    submitSync hUser s
      = ({ inputValue := "",
           conversation := appendMessage hUser s.conversation "user" (jsTrim s.inputValue) },
         some { method := "POST", url := "/chat",
                headers := [("Content-Type", "application/json")],
                body := Json.obj [("message", Json.str (jsTrim s.inputValue))] }) := by
  simp [submitSync, hne]

theorem submitSync_of_empty (hUser : Nat) (s : PageState) (he : jsTrim s.inputValue = "") :
    submitSync hUser s = (s, none) := by
  simp [submitSync, he]

theorem submit_requests_length_le_one (hUser hBot : Nat) (o : FetchOutcome) (s : PageState) :
    (submit hUser hBot o s).2.length ≤ 1 := by
  by_cases he : jsTrim s.inputValue = ""
  · simp [submit, submitSync_of_empty hUser s he]
  · simp [submit, submitSync_of_ne hUser s he]

/-! ## Claim theorems -/

/-- C1: for every input whose trimmed value is non-empty, the synchronous
phase of the submit handler — everything that runs before the network call
resolves — appends exactly one user-sender entry whose text is the trimmed
input, clears the input field, and issues exactly one outbound request
carrying that text. -/
theorem submit_nonempty_appends_user_clears_input_and_requests
    (hUser : Nat) (s : PageState) (hne : jsTrim s.inputValue ≠ "") :
    (submitSync hUser s).1.conversation.children
        = s.conversation.children ++ [⟨"user-message", jsTrim s.inputValue, hUser⟩]
    ∧ (submitSync hUser s).1.inputValue = ""
    ∧ (submitSync hUser s).2
        = some { method := "POST", url := "/chat",
                 headers := [("Content-Type", "application/json")],
                 body := Json.obj [("message", Json.str (jsTrim s.inputValue))] } := by
  refine ⟨?_, ?_, ?_⟩ <;> simp [submitSync_of_ne hUser s hne, appendMessage_children]

/-- Witness for C1 at the concrete input "  Hi ". -/
theorem submit_nonempty_appends_user_clears_input_and_requests_witness :
    jsTrim "  Hi " ≠ ""
    ∧ ((submitSync 3 ⟨"  Hi ", ⟨[], 0, 5⟩⟩).1.conversation.children
          = [] ++ [⟨"user-message", jsTrim "  Hi ", 3⟩]
      ∧ (submitSync 3 ⟨"  Hi ", ⟨[], 0, 5⟩⟩).1.inputValue = ""
      ∧ (submitSync 3 ⟨"  Hi ", ⟨[], 0, 5⟩⟩).2
          = some { method := "POST", url := "/chat",
                   headers := [("Content-Type", "application/json")],
                   body := Json.obj [("message", Json.str (jsTrim "  Hi "))] }) :=
  ⟨by decide,
   submit_nonempty_appends_user_clears_input_and_requests 3 ⟨"  Hi ", ⟨[], 0, 5⟩⟩ (by decide)⟩

/-- C2: for every exchange whose reply has a success status and a parsed
JSON body carrying a string field named "response" with value r, the
resumption appends exactly one bot-sender entry with text r and nothing
else. -/
theorem submit_success_appends_bot_reply
    (hBot : Nat) (s : PageState) (status : Nat) (v : Json) (r : String)
    (hok : responseOk status = true)
    (hresp : getProp v "response" = .ok (some (Json.str r))) :
    (submitResume hBot s (.response status (.parsed v))).conversation.children
        = s.conversation.children ++ [⟨"bot-message", r, hBot⟩]
    ∧ (submitResume hBot s (.response status (.parsed v))).inputValue = s.inputValue := by
  refine ⟨?_, submitResume_inputValue _ _ _⟩
  simp [submitResume, hok, hresp, jsToDomString, appendMessage_children]

/-- Witness for C2: status 200 and body with field "response" set to the
string "hello". -/
theorem submit_success_appends_bot_reply_witness :
    responseOk 200 = true
    ∧ getProp (Json.obj [("response", Json.str "hello")]) "response"
        = .ok (some (Json.str "hello"))
    ∧ ((submitResume 2 ⟨"", ⟨[], 0, 0⟩⟩
          (.response 200 (.parsed (Json.obj [("response", Json.str "hello")])))).conversation.children
          = [] ++ [⟨"bot-message", "hello", 2⟩]
      ∧ (submitResume 2 ⟨"", ⟨[], 0, 0⟩⟩
          (.response 200 (.parsed (Json.obj [("response", Json.str "hello")])))).inputValue = "") :=
  ⟨by decide, rfl,
   submit_success_appends_bot_reply 2 ⟨"", ⟨[], 0, 0⟩⟩ 200
     (Json.obj [("response", Json.str "hello")]) "hello" (by decide) rfl⟩

/-- C3: when the fetch rejects with a network error, or the response status
is outside the success range, the failure is absorbed by the catch block and
exactly one bot-sender entry with text "Error: " followed by the failure
description is appended; furthermore a submission issues at most one
request, so no retry occurs. -/
theorem submit_failure_appends_error_message
    (hUser hBot : Nat) (s sAny : PageState) (status : Nat) (body : BodyResult)
    (msg : String) (hbad : responseOk status = false) :
    (submitResume hBot s (.networkError msg)).conversation.children
        = s.conversation.children ++ [⟨"bot-message", "Error: " ++ msg, hBot⟩]
    ∧ (submitResume hBot s (.response status body)).conversation.children
        = s.conversation.children
            ++ [⟨"bot-message", "Error: " ++ "Network response was not ok", hBot⟩]
    ∧ (submit hUser hBot (.networkError msg) sAny).2.length ≤ 1
    ∧ (submit hUser hBot (.response status body) sAny).2.length ≤ 1 := by
  refine ⟨appendMessage_children _ _ _ _, ?_,
    submit_requests_length_le_one _ _ _ _, submit_requests_length_le_one _ _ _ _⟩
  cases body <;> simp [submitResume, hbad, appendMessage_children]

/-- Witness for C3 at status 500 and network-error message "failed to fetch". -/
theorem submit_failure_appends_error_message_witness :
    responseOk 500 = false
    ∧ ((submitResume 1 ⟨"", ⟨[], 0, 0⟩⟩ (.networkError "failed to fetch")).conversation.children
          = [] ++ [⟨"bot-message", "Error: " ++ "failed to fetch", 1⟩]
      ∧ (submitResume 1 ⟨"", ⟨[], 0, 0⟩⟩
            (.response 500 (.parseError "x"))).conversation.children
          = [] ++ [⟨"bot-message", "Error: " ++ "Network response was not ok", 1⟩]
      ∧ (submit 1 1 (.networkError "failed to fetch") ⟨"", ⟨[], 0, 0⟩⟩).2.length ≤ 1
      ∧ (submit 1 1 (.response 500 (.parseError "x")) ⟨"", ⟨[], 0, 0⟩⟩).2.length ≤ 1) :=
  ⟨by decide,
   submit_failure_appends_error_message 1 1 ⟨"", ⟨[], 0, 0⟩⟩ ⟨"", ⟨[], 0, 0⟩⟩ 500
     (.parseError "x") "failed to fetch" (by decide)⟩

/-- C5: for every input whose trimmed value is empty, the whole submit
handler is a no-op: it appends zero messages, issues zero requests, and
leaves the page state — including the input field — unchanged. -/
theorem submit_empty_input_noop
    (hUser hBot : Nat) (o : FetchOutcome) (s : PageState)
    (he : jsTrim s.inputValue = "") :
    submit hUser hBot o s = (s, []) := by
  simp [submit, submitSync_of_empty hUser s he]

/-- Witness for C5 at the whitespace-only input "   ". -/
theorem submit_empty_input_noop_witness :
    jsTrim "   " = ""
    ∧ submit 1 1 (.networkError "x") ⟨"   ", ⟨[], 0, 0⟩⟩ = (⟨"   ", ⟨[], 0, 0⟩⟩, []) :=
  ⟨by decide, submit_empty_input_noop 1 1 (.networkError "x") ⟨"   ", ⟨[], 0, 0⟩⟩ (by decide)⟩

/-- C4 counterexample: a success-status reply whose body parses as the JSON
object with no fields is NOT treated as failure — the handler appends a
normal bot entry with text "undefined" (the stringification of the missing
field), which does not carry the "Error: " prefix. -/
theorem malformed_body_not_failure_counterexample :
    (submitResume 1 ⟨"", ⟨[], 0, 0⟩⟩
        (.response 200 (.parsed (Json.obj [])))).conversation.children
      = [⟨"bot-message", "undefined", 1⟩]
    ∧ "undefined".data.take 7 ≠ "Error: ".data := by
  exact ⟨rfl, by decide⟩

/-- C4 amended: a non-success status, a body that fails to parse as JSON,
or a body that parses to JSON null — where reading `data.response` throws a
TypeError that the catch block absorbs — is treated as failure with an
"Error: "-prefixed entry; but a body that parses to JSON other than null
while lacking a "response" field yields a normal bot entry with text
"undefined" rather than an error entry. -/
theorem resume_malformed_body_handling
    (hBot : Nat) (s : PageState) (status bad : Nat) (msg : String)
    (v : Json) (b : BodyResult)
    (hok : responseOk status = true)
    (hbad : responseOk bad = false)
    (hnone : getProp v "response" = .ok none) :
    (submitResume hBot s (.response status (.parseError msg))).conversation.children
        = s.conversation.children ++ [⟨"bot-message", "Error: " ++ msg, hBot⟩]
    ∧ (submitResume hBot s (.response bad b)).conversation.children
        = s.conversation.children
            ++ [⟨"bot-message", "Error: " ++ "Network response was not ok", hBot⟩]
    ∧ (submitResume hBot s (.response status (.parsed Json.null))).conversation.children
        = s.conversation.children
            ++ [⟨"bot-message",
                 "Error: " ++ "Cannot read properties of null (reading response)", hBot⟩]
    ∧ (submitResume hBot s (.response status (.parsed v))).conversation.children
        = s.conversation.children ++ [⟨"bot-message", "undefined", hBot⟩]
    ∧ "undefined".data.take 7 ≠ "Error: ".data := by
  refine ⟨?_, ?_, ?_, ?_, by decide⟩
  · simp [submitResume, hok, appendMessage_children]
  · cases b <;> simp [submitResume, hbad, appendMessage_children]
  · simp [submitResume, hok, getProp, appendMessage_children]
  · simp [submitResume, hok, hnone, jsToDomString, appendMessage_children]

/-- Witness for the amended C4: status 200 with the empty JSON object as
body, and status 404 for the failing branch. -/
theorem resume_malformed_body_handling_witness :
    responseOk 200 = true ∧ responseOk 404 = false
    ∧ getProp (Json.obj []) "response" = .ok none
    ∧ ((submitResume 1 ⟨"", ⟨[], 0, 0⟩⟩
          (.response 200 (.parseError "bad json"))).conversation.children
          = [] ++ [⟨"bot-message", "Error: " ++ "bad json", 1⟩]
      ∧ (submitResume 1 ⟨"", ⟨[], 0, 0⟩⟩
          (.response 404 (.parseError "bad json"))).conversation.children
          = [] ++ [⟨"bot-message", "Error: " ++ "Network response was not ok", 1⟩]
      ∧ (submitResume 1 ⟨"", ⟨[], 0, 0⟩⟩
          (.response 200 (.parsed Json.null))).conversation.children
          = [] ++ [⟨"bot-message",
                    "Error: " ++ "Cannot read properties of null (reading response)", 1⟩]
      ∧ (submitResume 1 ⟨"", ⟨[], 0, 0⟩⟩
          (.response 200 (.parsed (Json.obj [])))).conversation.children
          = [] ++ [⟨"bot-message", "undefined", 1⟩]
      ∧ "undefined".data.take 7 ≠ "Error: ".data) :=
  ⟨by decide, by decide, rfl,
   resume_malformed_body_handling 1 ⟨"", ⟨[], 0, 0⟩⟩ 200 404 "bad json"
     (Json.obj []) (.parseError "bad json") (by decide) (by decide) rfl⟩

/-- C6: every request the submit handler issues is a POST to /chat with the
Content-Type header set to application/json and body the JSON object with a
single field "message" holding the trimmed user text. -/
theorem request_is_post_chat_json
    (hUser : Nat) (s : PageState) (req : Request)
    (hreq : (submitSync hUser s).2 = some req) :
    req.method = "POST" ∧ req.url = "/chat"
    ∧ req.headers = [("Content-Type", "application/json")]
    ∧ req.body = Json.obj [("message", Json.str (jsTrim s.inputValue))] := by
  by_cases he : jsTrim s.inputValue = ""
  · rw [submitSync_of_empty hUser s he] at hreq
    exact absurd hreq (by simp)
  · rw [submitSync_of_ne hUser s he] at hreq
    obtain rfl : _ = req := Option.some.inj hreq
    exact ⟨rfl, rfl, rfl, rfl⟩

/-- Witness for C6 at the concrete input "Hi". -/
theorem request_is_post_chat_json_witness :
    (submitSync 1 ⟨"Hi", ⟨[], 0, 0⟩⟩).2 = some sampleRequest
    ∧ (sampleRequest.method = "POST" ∧ sampleRequest.url = "/chat"
      ∧ sampleRequest.headers = [("Content-Type", "application/json")]
      ∧ sampleRequest.body = Json.obj [("message", Json.str (jsTrim "Hi"))]) :=
  ⟨rfl, request_is_post_chat_json 1 ⟨"Hi", ⟨[], 0, 0⟩⟩ sampleRequest rfl⟩

/-- C7: after every append — user, bot, or error — the conversation's scroll
position equals its maximum scrollable extent. -/
theorem appendMessage_scrolls_to_max_extent
    (h : Nat) (c : Conversation) (sender text : String) :
    (appendMessage h c sender text).scrollTop
      = maxScrollExtent (appendMessage h c sender text) := by
  exact Nat.min_eq_right (Nat.sub_le _ _)

/-- C8: the transcript is append-only: each phase of the handler only adds
entries at the end, the pre-existing entries survive unchanged, and one full
run extends the transcript with the user entry followed by the reply entry
(in chronological append order), or with nothing when the trimmed input is
empty. -/
theorem transcript_append_only
    (hUser hBot : Nat) (o : FetchOutcome) (s : PageState) :
    (submitSync hUser s).1.conversation.children.take s.conversation.children.length
        = s.conversation.children
    ∧ (submitResume hBot s o).conversation.children.take s.conversation.children.length
        = s.conversation.children
    ∧ (submit hUser hBot o s).1.conversation.children
        = s.conversation.children
          ++ (if jsTrim s.inputValue = "" then []
              else [⟨"user-message", jsTrim s.inputValue, hUser⟩, resumeElem hBot o]) := by
  by_cases he : jsTrim s.inputValue = ""
  · refine ⟨?_, ?_, ?_⟩
    · rw [submitSync_of_empty hUser s he]
      exact List.take_length _
    · rw [submitResume_children]
      exact List.take_left _ _
    · simp [submit, submitSync_of_empty hUser s he, he]
  · refine ⟨?_, ?_, ?_⟩
    · rw [submitSync_of_ne hUser s he, appendMessage_children]
      exact List.take_left _ _
    · rw [submitResume_children]
      exact List.take_left _ _
    · simp [submit, submitSync_of_ne hUser s he, he, submitResume_children,
        appendMessage_children]

/-- C10 counterexample: for the sender "a b", whose derived class token
"a b-message" contains ASCII whitespace, `classList.add` throws
InvalidCharacterError, so no element is created or appended — refuting the
claim quantified over every sender string. -/
theorem appendMessage_whitespace_sender_counterexample :
    appendMessageDom 1 ⟨[], 0, 0⟩ "a b" "t" = .error "InvalidCharacterError" := rfl

/-- C10 amended: for every sender whose derived class token (the sender
followed by "-message") passes `classList.add` validation — in particular
the only senders the script uses, "user" and "bot" — appendMessage creates
exactly one new element carrying that class with the text stored literally,
appends it at the end of the conversation, and neither reads nor modifies
any other entry; for a sender whose token contains ASCII whitespace,
`classList.add` throws InvalidCharacterError and nothing is appended. -/
theorem appendMessage_valid_token_single_literal_element
    (h : Nat) (c : Conversation) (sender bad text : String)
    (hv : validClassToken (sender ++ "-message") = true)
    (hw : (bad ++ "-message").data.any isAsciiWhitespace = true) :
    appendMessageDom h c sender text = .ok (appendMessage h c sender text)
    ∧ (appendMessage h c sender text).children
        = c.children ++ [⟨sender ++ "-message", text, h⟩]
    ∧ (appendMessage h c sender text).children.length = c.children.length + 1
    ∧ (appendMessage h c sender text).children.take c.children.length = c.children
    ∧ (appendMessage h c sender text).clientHeight = c.clientHeight
    ∧ appendMessageDom h c bad text = .error "InvalidCharacterError" := by
  have hv' : ((sender ++ "-message") == "") = false
      ∧ (sender ++ "-message").data.any isAsciiWhitespace = false := by
    simpa [validClassToken] using hv
  have hne : ((bad ++ "-message") == "") = false := by
    apply beq_eq_false_iff_ne.mpr
    intro h0
    rw [h0] at hw
    exact absurd hw (by decide)
  refine ⟨?_, appendMessage_children h c sender text, ?_, ?_, rfl, ?_⟩
  · simp only [appendMessageDom, hv'.1, hv'.2]
    simp
  · rw [appendMessage_children]; simp
  · rw [appendMessage_children]
    exact List.take_left _ _
  · simp only [appendMessageDom, hne, hw]
    simp

/-- Witness for the amended C10 at the valid sender "user" and the
whitespace-bearing sender "a b". -/
theorem appendMessage_valid_token_single_literal_element_witness :
    validClassToken ("user" ++ "-message") = true
    ∧ ("a b" ++ "-message").data.any isAsciiWhitespace = true
    ∧ (appendMessageDom 2 ⟨[], 0, 0⟩ "user" "Hi"
          = .ok (appendMessage 2 ⟨[], 0, 0⟩ "user" "Hi")
      ∧ (appendMessage 2 ⟨[], 0, 0⟩ "user" "Hi").children
          = Conversation.children ⟨[], 0, 0⟩ ++ [⟨"user" ++ "-message", "Hi", 2⟩]
      ∧ (appendMessage 2 ⟨[], 0, 0⟩ "user" "Hi").children.length
          = (Conversation.children ⟨[], 0, 0⟩).length + 1
      ∧ (appendMessage 2 ⟨[], 0, 0⟩ "user" "Hi").children.take
            (Conversation.children ⟨[], 0, 0⟩).length = Conversation.children ⟨[], 0, 0⟩
      ∧ (appendMessage 2 ⟨[], 0, 0⟩ "user" "Hi").clientHeight
          = Conversation.clientHeight ⟨[], 0, 0⟩
      ∧ appendMessageDom 2 ⟨[], 0, 0⟩ "a b" "Hi" = .error "InvalidCharacterError") :=
  ⟨by decide, by decide,
   appendMessage_valid_token_single_literal_element 2 ⟨[], 0, 0⟩ "user" "a b" "Hi"
     (by decide) (by decide)⟩

/-- C9: when a second submission happens before the first exchange's reply
arrives, the second submission runs its full synchronous phase and issues
its own request (no mutual exclusion); afterwards the two pending
resumptions may run in either order, and each order is a valid execution
whose replies appear in the transcript in exactly the order they resolved —
no ordering guarantee relates the two completions. -/
theorem overlapping_submissions_independent
    (hA hB h1 h2 : Nat) (mA mB : String) (c0 : Conversation) (oA oB : FetchOutcome)
    (hA0 : jsTrim mA ≠ "") (hB0 : jsTrim mB ≠ "") :
    (submitSync hB ⟨mB, (submitSync hA ⟨mA, c0⟩).1.conversation⟩).2
        = some { method := "POST", url := "/chat",
                 headers := [("Content-Type", "application/json")],
                 body := Json.obj [("message", Json.str (jsTrim mB))] }
    ∧ (submitResume h2 (submitResume h1
          (submitSync hB ⟨mB, (submitSync hA ⟨mA, c0⟩).1.conversation⟩).1 oA) oB).conversation.children
        = c0.children ++ [⟨"user-message", jsTrim mA, hA⟩, ⟨"user-message", jsTrim mB, hB⟩,
            resumeElem h1 oA, resumeElem h2 oB]
    ∧ (submitResume h2 (submitResume h1
          (submitSync hB ⟨mB, (submitSync hA ⟨mA, c0⟩).1.conversation⟩).1 oB) oA).conversation.children
        = c0.children ++ [⟨"user-message", jsTrim mA, hA⟩, ⟨"user-message", jsTrim mB, hB⟩,
            resumeElem h1 oB, resumeElem h2 oA] := by
  have e1 : (submitSync hA ⟨mA, c0⟩).1.conversation
      = appendMessage hA c0 "user" (jsTrim mA) := by
    rw [submitSync_of_ne hA ⟨mA, c0⟩ hA0]
  have e2 := submitSync_of_ne hB ⟨mB, appendMessage hA c0 "user" (jsTrim mA)⟩ hB0
  rw [e1, e2]
  refine ⟨rfl, ?_, ?_⟩ <;>
    simp [submitResume_children, appendMessage_children, List.append_assoc]

/-- Witness for C9: inputs "a" and "b", the first exchange failing with a
network error and the second succeeding with "hello", resolved in both
orders. -/
theorem overlapping_submissions_independent_witness :
    jsTrim "a" ≠ "" ∧ jsTrim "b" ≠ ""
    ∧ ((submitSync 1 ⟨"b", (submitSync 1 ⟨"a", ⟨[], 0, 0⟩⟩).1.conversation⟩).2
          = some { method := "POST", url := "/chat",
                   headers := [("Content-Type", "application/json")],
                   body := Json.obj [("message", Json.str (jsTrim "b"))] }
      ∧ (submitResume 1 (submitResume 1
            (submitSync 1 ⟨"b", (submitSync 1 ⟨"a", ⟨[], 0, 0⟩⟩).1.conversation⟩).1
            outcomeNetErr) outcomeHello).conversation.children
          = Conversation.children ⟨[], 0, 0⟩
              ++ [⟨"user-message", jsTrim "a", 1⟩, ⟨"user-message", jsTrim "b", 1⟩,
                  resumeElem 1 outcomeNetErr, resumeElem 1 outcomeHello]
      ∧ (submitResume 1 (submitResume 1
            (submitSync 1 ⟨"b", (submitSync 1 ⟨"a", ⟨[], 0, 0⟩⟩).1.conversation⟩).1
            outcomeHello) outcomeNetErr).conversation.children
          = Conversation.children ⟨[], 0, 0⟩
              ++ [⟨"user-message", jsTrim "a", 1⟩, ⟨"user-message", jsTrim "b", 1⟩,
                  resumeElem 1 outcomeHello, resumeElem 1 outcomeNetErr]) :=
  ⟨by decide, by decide,
   overlapping_submissions_independent 1 1 1 1 "a" "b" ⟨[], 0, 0⟩
     outcomeNetErr outcomeHello (by decide) (by decide)⟩

end ChatClient
